import Mathlib

/-!
Shallow embedding of the 2020plus utility module
(`src/utils/python/util.py`) and the data-shaping step of the plotting
module (`src/utils/python/plot.py`).

Modelling conventions:
* A text file is modelled by the list of its lines (as produced by
  Python's `handle.readlines()`); `str.strip()` is modelled by
  `pyStrip`, which removes the leading/trailing whitespace characters
  (space, tab, CR, LF) relevant here by structural recursion over the
  character list, so that it is kernel-computable.
* A Python `set` built from a list is modelled by `List.dedup`:
  membership in the dedup list coincides with membership in the list,
  which is all `classify_gene` uses.
* The external HGVS parsers (`AminoAcid(hgvs=...).mutation_type` and
  `Nucleotide(hgvs=...).mutation_type`, imported from modules not in
  this repository) are injected capabilities: arbitrary functions
  `String → String` passed as parameters.
* `pd.Series` of strings is modelled as `List String` (order and
  length preserving).
* `pd.Series.value_counts()` is modelled up to its counts: one entry
  per distinct value with its multiplicity.  pandas additionally sorts
  the result by descending count with an implementation-defined tie
  order (hash-table scan followed by an unstable sort), which is not
  modelled.
-/

/-- Drops leading whitespace characters from a character list. -/
def dropLeadingWs : List Char → List Char
  | [] => []
  | c :: cs => if c.isWhitespace then dropLeadingWs cs else c :: cs

/-- Embeds Python `str.strip()`: removes leading and trailing
whitespace. -/
def pyStrip (s : String) : String :=
  String.mk (((dropLeadingWs s.data).reverse |> dropLeadingWs).reverse)

/-- Embeds `read_oncogenes` of `util.py`: reads the oncogene list file
and strips each line.  No blank-line filtering is performed by the
source. -/
def read_oncogenes (lines : List String) : List String :=
  lines.map (fun gene => pyStrip gene)

/-- Embeds `read_tsgs` of `util.py`: reads the tumor-suppressor list
file and strips each line.  No blank-line filtering is performed by
the source. -/
def read_tsgs (lines : List String) : List String :=
  lines.map (fun gene => pyStrip gene)

/-- Embeds Python `set(...)` as used for `oncogene_set = set(oncogene_list)`
and `tsg_set = set(tsg_list)` in `util.py`: deduplicated membership. -/
def pySet (l : List String) : List String := l.dedup

/-- Embeds the module-level `oncogene_set` of `util.py`, as a function of
the file contents. -/
def oncogene_set (lines : List String) : List String :=
  pySet (read_oncogenes lines)

/-- Embeds the module-level `tsg_set` of `util.py`, as a function of the
file contents. -/
def tsg_set (lines : List String) : List String :=
  pySet (read_tsgs lines)

/-- Embeds `classify_gene` of `util.py`: oncogene membership is checked
first, then tsg membership, otherwise the gene is classified other. -/
def classify_gene (oncogeneSet tsgSet : List String) (gene : String) : String :=
  if gene ∈ oncogeneSet then "oncogene"
  else if gene ∈ tsgSet then "tsg"
  else "other"

/-- Embeds `get_mutation_types` of `util.py`.  The HGVS parsers are the
injected parameters `aaMutationType` and `nucMutationType`.  For a kind
that is neither recognized string, the source's `mut_type` list stays
empty and an empty series is returned (there is no else branch and no
raised error). -/
def get_mutation_types (aaMutationType nucMutationType : String → String)
    (hgvs_iterable : List String) (kind : String) : List String :=
  if kind = "amino acid" then hgvs_iterable.map aaMutationType
  else if kind = "nucleotide" then hgvs_iterable.map nucMutationType
  else []

/-- Embeds the call `get_mutation_types(hgvs_iterable)` with the Python
default argument `kind='amino acid'`. -/
def get_mutation_types_default (aaMutationType nucMutationType : String → String)
    (hgvs_iterable : List String) : List String :=
  get_mutation_types aaMutationType nucMutationType hgvs_iterable "amino acid"

/-- Embeds `pd.Series.value_counts()` up to its counts: one entry per
distinct value of the series, paired with its multiplicity.  The
descending-count sort applied by pandas (whose tie order is
implementation-defined) is not modelled; no claim below depends on it. -/
def value_counts (xs : List String) : List (String × Nat) :=
  xs.dedup.map (fun v => (v, xs.count v))

/-- Embeds `count_mutation_types` of `util.py`: composes
`get_mutation_types` with `value_counts`. -/
def count_mutation_types (aaMutationType nucMutationType : String → String)
    (hgvs_iterable : List String) (kind : String) : List (String × Nat) :=
  value_counts (get_mutation_types aaMutationType nucMutationType hgvs_iterable kind)

/-- Embeds the call `count_mutation_types(hgvs_iterable)` with the Python
default argument `kind='amino acid'`. -/
def count_mutation_types_default (aaMutationType nucMutationType : String → String)
    (hgvs_iterable : List String) : List (String × Nat) :=
  count_mutation_types aaMutationType nucMutationType hgvs_iterable "amino acid"

/-- C1: `classify_gene` always returns one of the three labels, returns
"oncogene" whenever the gene is in the oncogene set, "tsg" whenever it
is only in the tsg set, and "other" when it is in neither set; unknown
symbols raise no error (the function is total). -/
theorem classify_gene_trichotomy (oncogeneSet tsgSet : List String) (gene : String) :
    (classify_gene oncogeneSet tsgSet gene = "oncogene" ∨
      classify_gene oncogeneSet tsgSet gene = "tsg" ∨
      classify_gene oncogeneSet tsgSet gene = "other") ∧
    (gene ∈ oncogeneSet → classify_gene oncogeneSet tsgSet gene = "oncogene") ∧
    (gene ∉ oncogeneSet → gene ∈ tsgSet →
      classify_gene oncogeneSet tsgSet gene = "tsg") ∧
    (gene ∉ oncogeneSet → gene ∉ tsgSet →
      classify_gene oncogeneSet tsgSet gene = "other") := by
  unfold classify_gene
  refine ⟨?_, ?_, ?_, ?_⟩
  · split
    · exact Or.inl rfl
    · split
      · exact Or.inr (Or.inl rfl)
      · exact Or.inr (Or.inr rfl)
  · intro h; rw [if_pos h]
  · intro h h'; rw [if_neg h, if_pos h']
  · intro h h'; rw [if_neg h, if_neg h']

/-- C1 witness: the three cases of `classify_gene_trichotomy` at the
concrete one-element oncogene and tsg sets KRAS and RB1. -/
theorem classify_gene_trichotomy_witness :
    classify_gene ["KRAS"] ["RB1"] "KRAS" = "oncogene" ∧
    classify_gene ["KRAS"] ["RB1"] "RB1" = "tsg" ∧
    classify_gene ["KRAS"] ["RB1"] "XYZ1" = "other" :=
  ⟨(classify_gene_trichotomy ["KRAS"] ["RB1"] "KRAS").2.1 (by decide),
   (classify_gene_trichotomy ["KRAS"] ["RB1"] "RB1").2.2.1 (by decide) (by decide),
   (classify_gene_trichotomy ["KRAS"] ["RB1"] "XYZ1").2.2.2 (by decide) (by decide)⟩

/-- C4: a gene present in both the oncogene set and the tsg set is
classified "oncogene" (the oncogene check comes first), never "tsg". -/
theorem classify_gene_both_is_oncogene (oncogeneSet tsgSet : List String)
    (gene : String) (ho : gene ∈ oncogeneSet) (_ht : gene ∈ tsgSet) :
    classify_gene oncogeneSet tsgSet gene = "oncogene" ∧
    classify_gene oncogeneSet tsgSet gene ≠ "tsg" := by
  have h : classify_gene oncogeneSet tsgSet gene = "oncogene" := by
    unfold classify_gene
    rw [if_pos ho]
  refine ⟨h, ?_⟩
  rw [h]
  decide

/-- C4 witness: a gene in both concrete sets is classified "oncogene". -/
theorem classify_gene_both_is_oncogene_witness :
    classify_gene ["TP53"] ["TP53"] "TP53" = "oncogene" ∧
    classify_gene ["TP53"] ["TP53"] "TP53" ≠ "tsg" :=
  classify_gene_both_is_oncogene ["TP53"] ["TP53"] "TP53" (by decide) (by decide)

/-- C2: for a recognized kind, the sequence returned by
`get_mutation_types` has the input's length, and the element at each
position is the mutation type (under the parser selected by the kind)
of the input at that position. -/
theorem get_mutation_types_order_preserving
    (aaMutationType nucMutationType : String → String)
    (hgvs_iterable : List String) (kind : String)
    (hk : kind = "amino acid" ∨ kind = "nucleotide") :
    (get_mutation_types aaMutationType nucMutationType hgvs_iterable kind).length =
      hgvs_iterable.length ∧
    ∀ i : Nat,
      (get_mutation_types aaMutationType nucMutationType hgvs_iterable kind)[i]? =
        (hgvs_iterable[i]?).map
          (fun s => if kind = "amino acid" then aaMutationType s
                    else nucMutationType s) := by
  rcases hk with hk | hk <;> subst hk
  · constructor
    · simp [get_mutation_types]
    · intro i
      simp [get_mutation_types]
  · constructor
    · simp [get_mutation_types]
    · intro i
      simp [get_mutation_types]

/-- C2 witness: `get_mutation_types_order_preserving` instantiated with
a constant missense parser on a concrete two-element input. -/
theorem get_mutation_types_order_preserving_witness :
    (get_mutation_types (fun _ => "missense") (fun _ => "substitution")
        ["p.R175H", "p.Q61K"] "amino acid").length = 2 ∧
    (get_mutation_types (fun _ => "missense") (fun _ => "substitution")
        ["p.R175H", "p.Q61K"] "amino acid")[1]? =
      (["p.R175H", "p.Q61K"][1]?).map
        (fun s => if "amino acid" = "amino acid" then
            (fun _ => "missense") s else (fun _ => "substitution") s) :=
  ⟨(get_mutation_types_order_preserving (fun _ => "missense")
      (fun _ => "substitution") ["p.R175H", "p.Q61K"] "amino acid"
      (Or.inl rfl)).1,
   (get_mutation_types_order_preserving (fun _ => "missense")
      (fun _ => "substitution") ["p.R175H", "p.Q61K"] "amino acid"
      (Or.inl rfl)).2 1⟩

/-- C3: for a recognized kind, `count_mutation_types` of the empty
sequence is the empty table, and the counts of the table for a sequence
of length N sum to exactly N. -/
theorem count_mutation_types_sum
    (aaMutationType nucMutationType : String → String)
    (hgvs_iterable : List String) (kind : String)
    (hk : kind = "amino acid" ∨ kind = "nucleotide") :
    count_mutation_types aaMutationType nucMutationType [] kind = [] ∧
    ((count_mutation_types aaMutationType nucMutationType hgvs_iterable kind).map
        Prod.snd).sum = hgvs_iterable.length := by
  have hempty :
      count_mutation_types aaMutationType nucMutationType [] kind = [] := by
    unfold count_mutation_types get_mutation_types value_counts
    split
    · simp
    · split <;> simp
  refine ⟨hempty, ?_⟩
  have hlen :
      (get_mutation_types aaMutationType nucMutationType hgvs_iterable kind).length =
        hgvs_iterable.length :=
    (get_mutation_types_order_preserving aaMutationType nucMutationType
      hgvs_iterable kind hk).1
  unfold count_mutation_types value_counts
  rw [List.map_map]
  have := List.sum_map_count_dedup_eq_length
    (get_mutation_types aaMutationType nucMutationType hgvs_iterable kind)
  rw [← hlen, ← this]
  rfl

/-- C3 witness: `count_mutation_types_sum` at a concrete two-element
input with a constant missense parser. -/
theorem count_mutation_types_sum_witness :
    count_mutation_types (fun _ => "missense") (fun _ => "substitution")
      [] "amino acid" = [] ∧
    ((count_mutation_types (fun _ => "missense") (fun _ => "substitution")
        ["p.R175H", "p.Q61K"] "amino acid").map Prod.snd).sum = 2 :=
  count_mutation_types_sum (fun _ => "missense") (fun _ => "substitution")
    ["p.R175H", "p.Q61K"] "amino acid" (Or.inl rfl)

/-- C5 counterexample: with a kind that is neither "amino acid" nor
"nucleotide", `get_mutation_types` and `count_mutation_types` do not
fail: they return an ordinary empty result even on a nonempty input, so
no UnsupportedKind error is surfaced. -/
theorem unrecognized_kind_no_error :
    get_mutation_types (fun _ => "missense") (fun _ => "substitution")
      ["p.R175H"] "codon" = [] ∧
    count_mutation_types (fun _ => "missense") (fun _ => "substitution")
      ["p.R175H"] "codon" = [] := by
  constructor <;> rfl

/-- C5 amended: for every kind that is neither "amino acid" nor
"nucleotide", `get_mutation_types` silently returns the empty sequence
and `count_mutation_types` the empty table, for every input. -/
theorem unrecognized_kind_silent_empty
    (aaMutationType nucMutationType : String → String)
    (hgvs_iterable : List String) (kind : String)
    (h1 : kind ≠ "amino acid") (h2 : kind ≠ "nucleotide") :
    get_mutation_types aaMutationType nucMutationType hgvs_iterable kind = [] ∧
    count_mutation_types aaMutationType nucMutationType hgvs_iterable kind = [] := by
  have hget :
      get_mutation_types aaMutationType nucMutationType hgvs_iterable kind = [] := by
    unfold get_mutation_types
    rw [if_neg h1, if_neg h2]
  refine ⟨hget, ?_⟩
  unfold count_mutation_types value_counts
  rw [hget]
  rfl

/-- C5 amended witness: the silent empty result at the concrete
unrecognized kind "codon". -/
theorem unrecognized_kind_silent_empty_witness :
    get_mutation_types (fun _ => "missense") (fun _ => "substitution")
      ["p.R175H", "c.35G>A"] "codon" = [] ∧
    count_mutation_types (fun _ => "missense") (fun _ => "substitution")
      ["p.R175H", "c.35G>A"] "codon" = [] :=
  unrecognized_kind_silent_empty (fun _ => "missense") (fun _ => "substitution")
    ["p.R175H", "c.35G>A"] "codon" (by decide) (by decide)

/-- C9: calling `get_mutation_types` and `count_mutation_types` with the
Python default argument is the same as passing kind "amino acid"
explicitly. -/
theorem default_kind_is_amino_acid
    (aaMutationType nucMutationType : String → String)
    (hgvs_iterable : List String) :
    get_mutation_types_default aaMutationType nucMutationType hgvs_iterable =
      get_mutation_types aaMutationType nucMutationType hgvs_iterable "amino acid" ∧
    count_mutation_types_default aaMutationType nucMutationType hgvs_iterable =
      count_mutation_types aaMutationType nucMutationType hgvs_iterable
        "amino acid" :=
  ⟨rfl, rfl⟩

/-- C10: for a recognized kind, every entry of the table returned by
`count_mutation_types` has a strictly positive count, and its label was
observed in the classified sequence (never-observed labels are absent,
not zero-valued). -/
theorem count_mutation_types_pos
    (aaMutationType nucMutationType : String → String)
    (hgvs_iterable : List String) (kind : String)
    (_hk : kind = "amino acid" ∨ kind = "nucleotide")
    (p : String × Nat)
    (hp : p ∈ count_mutation_types aaMutationType nucMutationType hgvs_iterable kind) :
    0 < p.2 ∧
      p.1 ∈ get_mutation_types aaMutationType nucMutationType hgvs_iterable kind := by
  unfold count_mutation_types value_counts at hp
  rcases List.mem_map.1 hp with ⟨v, hv, hvp⟩
  have hvmem :
      v ∈ get_mutation_types aaMutationType nucMutationType hgvs_iterable kind :=
    List.mem_dedup.1 hv
  subst hvp
  exact ⟨List.count_pos_iff.2 hvmem, hvmem⟩

/-- C10 witness: `count_mutation_types_pos` at a concrete entry of the
table for a concrete two-element input. -/
theorem count_mutation_types_pos_witness :
    0 < (("missense", 2) : String × Nat).2 ∧
      (("missense", 2) : String × Nat).1 ∈
        get_mutation_types (fun _ => "missense") (fun _ => "substitution")
          ["p.R175H", "p.Q61K"] "amino acid" :=
  count_mutation_types_pos (fun _ => "missense") (fun _ => "substitution")
    ["p.R175H", "p.Q61K"] "amino acid" (Or.inl rfl) ("missense", 2) (by decide)

/-- C6 counterexample: a gene-list file containing a whitespace-only
line yields the empty string as a member of the oncogene set, so blank
lines are not excluded. -/
theorem blank_line_reaches_oncogene_set :
    "" ∈ oncogene_set ["KRAS", "  ", "RB1"] := by
  decide

/-- C6 amended: gene-list loading strips whitespace from every line
(every set member is the trim of some input line), but blank lines are
not excluded: whenever some line trims to the empty string, the empty
string is a member of the resulting gene set.  This holds symmetrically
for the oncogene and the tsg set. -/
theorem gene_lists_trim_but_keep_blanks (lines : List String) :
    (∀ g, g ∈ oncogene_set lines → ∃ l, l ∈ lines ∧ g = pyStrip l) ∧
    (∀ g, g ∈ tsg_set lines → ∃ l, l ∈ lines ∧ g = pyStrip l) ∧
    (∀ l, l ∈ lines → pyStrip l = "" → "" ∈ oncogene_set lines) ∧
    (∀ l, l ∈ lines → pyStrip l = "" → "" ∈ tsg_set lines) := by
  refine ⟨?_, ?_, ?_, ?_⟩
  · intro g hg
    rcases List.mem_map.1 (List.mem_dedup.1 hg) with ⟨l, hl, hgl⟩
    exact ⟨l, hl, hgl.symm⟩
  · intro g hg
    rcases List.mem_map.1 (List.mem_dedup.1 hg) with ⟨l, hl, hgl⟩
    exact ⟨l, hl, hgl.symm⟩
  · intro l hl htrim
    exact List.mem_dedup.2 (List.mem_map.2 ⟨l, hl, htrim⟩)
  · intro l hl htrim
    exact List.mem_dedup.2 (List.mem_map.2 ⟨l, hl, htrim⟩)

/-- C6 amended witness: the blank-line clause of
`gene_lists_trim_but_keep_blanks` at a concrete file with a
whitespace-only second line. -/
theorem gene_lists_trim_but_keep_blanks_witness :
    "" ∈ oncogene_set ["KRAS", " ", "RB1"] :=
  (gene_lists_trim_but_keep_blanks ["KRAS", " ", "RB1"]).2.2.1 " "
    (by decide) (by decide)

/-- Looks up the position of a label in a list of labels, as pandas
label-based indexing does; `none` models a KeyError. -/
def idxOf? (x : String) : List String → Option Nat
  | [] => none
  | y :: ys => if y = x then some 0 else (idxOf? x ys).map (fun i => i + 1)

/-- Pads a parsed row to the table's column count: `pd.read_csv` yields
a rectangular frame, short rows padded with NaN (modelled `none`). -/
def padRow (n : Nat) (row : List (Option Int)) : List (Option Int) :=
  row.take n ++ List.replicate (n - row.length) none

/-- Models a pandas DataFrame of numeric cells after `set_index`: row
labels, column labels, and a rectangular grid of cells where `none` is
NaN (a missing cell of the file). -/
structure DataFrame where
  index : List String
  columns : List String
  data : List (List (Option Int))

/-- Cell lookup by row and column label.  The outer `Option` models a
KeyError (absent row or column label); the inner `Option Int` is the
cell, `none` when the file left it missing (NaN). -/
def DataFrame.getCell (df : DataFrame) (r c : String) : Option (Option Int) :=
  match idxOf? r df.index, idxOf? c df.columns with
  | some i, some j =>
    match df.data[i]? with
    | some row => some (row[j]?.join)
    | none => none
  | _, _ => none

/-- Embeds `pd.DataFrame.fillna`: replaces every NaN cell by the given
value. -/
def DataFrame.fillna (df : DataFrame) (v : Int) : DataFrame :=
  { df with data := df.data.map (fun row => row.map (fun cell => some (cell.getD v))) }

/-- Embeds `read_aa_properties` of `util.py`: `pd.read_csv(file_path,
sep='\t')` followed by `df.set_index('initial_prop')`.  The parsed file
is given as the non-index column headers and the rows, each row as its
`initial_prop` field paired with its remaining cells (`none` for a
missing cell).  The loader performs no NaN filling. -/
def read_aa_properties (cols : List String)
    (rows : List (String × List (Option Int))) : DataFrame :=
  { index := rows.map Prod.fst,
    columns := cols,
    data := rows.map (fun pr => padRow cols.length pr.2) }

/-- Embeds the data-shaping step `df = df.fillna(0)` at the top of
`heatmap` in `plot.py`; the subsequent matplotlib rendering is an
external collaborator and is not modelled. -/
def heatmap_data (df : DataFrame) : DataFrame := df.fillna 0

/-- A found label index is within bounds. -/
theorem idxOf?_lt_length {x : String} :
    ∀ {l : List String} {i : Nat}, idxOf? x l = some i → i < l.length := by
  intro l
  induction l with
  | nil => intro i h; simp [idxOf?] at h
  | cons y ys ih =>
    intro i h
    unfold idxOf? at h
    by_cases hy : y = x
    · rw [if_pos hy] at h
      cases h
      simp
    · rw [if_neg hy] at h
      cases hmo : idxOf? x ys with
      | none => rw [hmo] at h; simp at h
      | some i' =>
        rw [hmo] at h
        obtain rfl : i' + 1 = i := Option.some.inj h
        have hi' := ih hmo
        simp only [List.length_cons]
        omega

/-- Padded rows have exactly the table's column count. -/
theorem padRow_length (n : Nat) (row : List (Option Int)) :
    (padRow n row).length = n := by
  unfold padRow
  rw [List.length_append, List.length_take, List.length_replicate]
  omega

/-- C8 counterexample: in the table returned by `read_aa_properties`, a
cell the file left missing reads back as NaN (`none`), not as the count
0: the loader does not treat missing cells as zero. -/
theorem read_aa_properties_missing_cell_nan :
    (read_aa_properties ["nonpolar", "polar"]
        [("polar", [some 5])]).getCell "polar" "polar" = some none ∧
    (some none : Option (Option Int)) ≠ some (some 0) := by
  constructor
  · rfl
  · decide

/-- C8 amended: `read_aa_properties` indexes the tab-separated table by
its initial_prop column but leaves missing cells as NaN; it is the
heatmap consumer's `df.fillna(0)` step that turns every missing cell
into the count 0. -/
theorem heatmap_fills_missing_cells (cols : List String)
    (rows : List (String × List (Option Int))) (r c : String)
    (h : (read_aa_properties cols rows).getCell r c = some none) :
    (heatmap_data (read_aa_properties cols rows)).getCell r c = some (some 0) := by
  unfold read_aa_properties DataFrame.getCell at h
  unfold heatmap_data DataFrame.fillna read_aa_properties DataFrame.getCell
  simp only at h ⊢
  split at h
  · rename_i i j hi hj
    split at h
    · rename_i row hrow
      have hjoin : row[j]?.join = none := by
        simpa using h
      have hrlen : row.length = cols.length := by
        rw [List.getElem?_map] at hrow
        cases hpr : rows[i]? with
        | none => rw [hpr] at hrow; simp at hrow
        | some pr =>
          rw [hpr] at hrow
          obtain rfl : padRow cols.length pr.2 = row := by simpa using hrow
          exact padRow_length cols.length pr.2
      have hjlt : j < row.length := by
        rw [hrlen]
        exact idxOf?_lt_length hj
      have hcell : row[j]? = some none := by
        rw [List.getElem?_eq_getElem hjlt] at hjoin ⊢
        cases hc : row[j] with
        | none => rfl
        | some v => rw [hc] at hjoin; simp at hjoin
      rw [List.getElem?_map, hrow]
      simp [List.getElem?_map, hcell]
    · simp at h
  · simp at h

/-- C8 amended witness: `heatmap_fills_missing_cells` at the concrete
one-row table whose polar-to-polar cell is missing in the file. -/
theorem heatmap_fills_missing_cells_witness :
    (heatmap_data (read_aa_properties ["nonpolar", "polar"]
        [("polar", [some 5])])).getCell "polar" "polar" = some (some 0) :=
  heatmap_fills_missing_cells ["nonpolar", "polar"] [("polar", [some 5])]
    "polar" "polar" (by decide)
